import Mathlib

/-!
Verification of the configuration-resolution and credential-caching engine
of the aws-config crate (aws/rust-runtime/aws-config/src/lib.rs).

The `ConfigLoader` builder and its `load` method are embedded directly from
the source.  The axis default chains, the credentials chain, and the lazy
credential cache live in sibling modules of the crate that are not part of
the given sources; those are modelled from the specification text, and each
such definition is marked `Modelled from the spec:` in its doc comment.
-/

/-- Modelled from the spec: a Credentials value - access key identifier,
secret key material, optional session token, optional expiration timestamp
(seconds), and the identifying name of the provider that produced them
(spec section 3; the type lives in the aws-types crate, outside src/). -/
structure Credentials where
  access_key_id : String
  secret_access_key : String
  session_token : Option String
  expiry : Option Nat
  provider_name : String
deriving DecidableEq

/-- Modelled from the spec: the error taxonomy for credential resolution
(spec section 7): InvalidConfiguration is terminal for the credentials
chain; ProviderUnreachable is soft unless it comes from the final step;
CredentialsNotLoaded reports an exhausted chain naming the last attempted
source. -/
inductive CredsError where
  | invalidConfiguration (msg : String)
  | providerUnreachable (source : String) (msg : String)
  | credentialsNotLoaded (lastAttempted : String)
deriving DecidableEq

/-- Modelled from the spec: the result of asking a credentials capability
for credentials (Result of Credentials and a credentials error). -/
inductive CredsResult where
  | ok (creds : Credentials)
  | error (e : CredsError)
deriving DecidableEq

/-- Modelled from the spec: retry policy; only the max-attempts knob is
needed by the claims (the type lives in aws-smithy-types, outside src/).
The default constructed by RetryConfig::new has three attempts. -/
structure RetryConfig where
  max_attempts : Nat := 3
deriving DecidableEq

/-- Modelled from the spec: timeout policy with per-phase optional
durations (api/http/tcp), all unset in the default (empty) configuration
(the type lives in aws-smithy-types, outside src/). -/
structure TimeoutConfig where
  api : Option Nat := none
  http : Option Nat := none
  tcp : Option Nat := none
deriving DecidableEq

/-- Modelled from the spec: the settings an HTTP connector is built with;
`load` fills them from a timeout configuration via with_http_timeout_config
and with_tcp_timeout_config. -/
structure HttpSettings where
  httpTimeout : Option Nat := none
  tcpTimeout : Option Nat := none
deriving DecidableEq

/-- Modelled from the spec: a sleep/time capability; `default` stands for
the runtime-supplied default_async_sleep, `custom` for a user override. -/
inductive SleepImpl where
  | default
  | custom (id : Nat)
deriving DecidableEq

/-- The runtime default sleep implementation returned by
default_async_sleep() in `load`. -/
def defaultAsyncSleep : Option SleepImpl := some SleepImpl.default

/-- Modelled from the spec: an HTTP transport capability.  `prebuilt`
records the data `default_connector(&settings, sleep_impl)` closes over;
`custom` stands for a user-supplied connector override. -/
inductive HttpConnector where
  | prebuilt (settings : HttpSettings) (sleep : Option SleepImpl)
  | custom (id : Nat)
deriving DecidableEq

/-- Modelled from the spec: the outcome of one step of the credentials
chain (spec sections 4.3 and 7): credentials, no opinion, a network
unreachability failure (soft unless final), or a malformed local
configuration (terminal). -/
inductive CredStep where
  | creds (c : Credentials)
  | noCreds
  | unreachable (msg : String)
  | invalidConfig (msg : String)
deriving DecidableEq

/-- Association-list lookup used for the injectable environment, profile
and keyed response maps of the Source Abstraction. -/
def assocLookup {α : Type} (l : List (String × α)) (k : String) : Option α :=
  (l.find? (fun p => p.1 == k)).map (fun p => p.2)

/-- Modelled from the spec: the Source Abstraction / ProviderConfig - an
injectable view of environment variables, the parsed shared profile file,
the IMDS region lookup, the STS regional endpoints (responses keyed by
signing region), and the remote identity steps (web-identity, container,
IMDS), each substitutable for testing (spec sections 2, 3 and 6). -/
structure ProviderConfig where
  env : List (String × String) := []
  profile : Option (List (String × String)) := none
  imdsRegion : Option String := none
  sts : List (String × Credentials) := []
  webIdentity : CredStep := CredStep.noCreds
  ecsCreds : CredStep := CredStep.noCreds
  imdsCreds : CredStep := CredStep.noCreds
deriving DecidableEq

/-- ProviderConfig::empty, also the value unwrap_or_default() falls back
to in `load`. -/
def ProviderConfig.empty : ProviderConfig := {}

/-! ## The generic Ordered Fallback Chain (spec section 4.1) -/

/-- Modelled from the spec: what one provider step of an ordered fallback
chain reports - a present value, an absence signal, or a hard error. -/
inductive StepResult (V : Type) where
  | present (v : V)
  | absent
  | hardError (msg : String)
deriving DecidableEq

/-- Modelled from the spec: per-chain hard-error policy - the region,
retry, timeout and app-name chains treat hard errors as absence and
continue; a terminal policy stops and surfaces the error. -/
inductive ErrorPolicy where
  | treatAsAbsence
  | terminal
deriving DecidableEq

/-- Modelled from the spec: the overall result of running a chain. -/
inductive ChainResult (V : Type) where
  | value (v : V)
  | absence
  | error (msg : String)
deriving DecidableEq

/-- Whether a chain result is a fatal error. -/
def ChainResult.isError {V : Type} : ChainResult V → Bool
  | .error _ => true
  | _ => false

/-- The value of a chain result, if any. -/
def ChainResult.toOption {V : Type} : ChainResult V → Option V
  | .value v => some v
  | _ => none

/-- Modelled from the spec: run an ordered fallback chain - attempt each
provider in order; on a present value return it immediately; on absence
continue; on a hard error stop (terminal policy) or continue (treat as
absence).  If every provider yields absence the result is absence.  The
second component counts how many providers were consulted (invoked). -/
def runChain {V : Type} (steps : List (StepResult V)) (pol : ErrorPolicy) :
    ChainResult V × Nat :=
  match steps with
  | [] => (ChainResult.absence, 0)
  | s :: rest =>
    match s, pol with
    | .present v, _ => (ChainResult.value v, 1)
    | .absent, _ => ((runChain rest pol).1, (runChain rest pol).2 + 1)
    | .hardError m, .terminal => (ChainResult.error m, 1)
    | .hardError _, .treatAsAbsence => ((runChain rest pol).1, (runChain rest pol).2 + 1)

/-- A step that the chain passes over without producing a result: an
absence, or a hard error under the treat-as-absence policy. -/
def stepSkipped {V : Type} (pol : ErrorPolicy) : StepResult V → Bool
  | .absent => true
  | .hardError _ => pol == ErrorPolicy.treatAsAbsence
  | .present _ => false

/-! ## The axis default chains (spec section 4.2) -/

/-- Decimal digit value of a character, if it is one. -/
def digit? (c : Char) : Option Nat :=
  if c = '0' then some 0 else if c = '1' then some 1
  else if c = '2' then some 2 else if c = '3' then some 3
  else if c = '4' then some 4 else if c = '5' then some 5
  else if c = '6' then some 6 else if c = '7' then some 7
  else if c = '8' then some 8 else if c = '9' then some 9
  else none

/-- Fold a list of decimal digits into a number; any non-digit makes the
whole value malformed. -/
def parseDigits : List Char → Nat → Option Nat
  | [], acc => some acc
  | c :: cs, acc =>
    match digit? c with
    | some d => parseDigits cs (acc * 10 + d)
    | none => none

/-- Parse a numeric configuration value; the empty string and any
non-decimal text are malformed. -/
def parseNatValue (s : String) : Option Nat :=
  match s.data with
  | [] => none
  | cs => parseDigits cs 0

/-- Modelled from the spec: the region default chain's steps -
environment-variable lookup, then shared-profile lookup, then IMDS-based
lookup. -/
def regionSteps (conf : ProviderConfig) : List (StepResult String) :=
  [ match assocLookup conf.env "AWS_REGION" with
    | some r => StepResult.present r
    | none => StepResult.absent,
    match conf.profile with
    | some p =>
      match assocLookup p "region" with
      | some r => StepResult.present r
      | none => StepResult.absent
    | none => StepResult.absent,
    match conf.imdsRegion with
    | some r => StepResult.present r
    | none => StepResult.absent ]

/-- Modelled from the spec: the retry default chain's steps - the
AWS_MAX_ATTEMPTS environment variable, then the profile's max_attempts
setting; a malformed (non-numeric) value is a hard error of that step,
which the chain's policy treats as absence. -/
def retrySteps (conf : ProviderConfig) : List (StepResult Nat) :=
  [ match assocLookup conf.env "AWS_MAX_ATTEMPTS" with
    | some s =>
      match parseNatValue s with
      | some n => StepResult.present n
      | none => StepResult.hardError "invalid AWS_MAX_ATTEMPTS"
    | none => StepResult.absent,
    match conf.profile with
    | some p =>
      match assocLookup p "max_attempts" with
      | some s =>
        match parseNatValue s with
        | some n => StepResult.present n
        | none => StepResult.hardError "invalid profile max_attempts"
      | none => StepResult.absent
    | none => StepResult.absent ]

/-- Modelled from the spec: the timeout default chain's steps - the
profile's api_timeout setting (malformed values are a hard error of the
step, treated as absence by the chain's policy). -/
def timeoutSteps (conf : ProviderConfig) : List (StepResult Nat) :=
  [ match conf.profile with
    | some p =>
      match assocLookup p "api_timeout" with
      | some s =>
        match parseNatValue s with
        | some n => StepResult.present n
        | none => StepResult.hardError "invalid profile api_timeout"
      | none => StepResult.absent
    | none => StepResult.absent ]

/-- Modelled from the spec: the app-name default chain's steps -
environment-variable lookup, then shared-profile lookup. -/
def appNameSteps (conf : ProviderConfig) : List (StepResult String) :=
  [ match assocLookup conf.env "AWS_SDK_UA_APP_ID" with
    | some s => StepResult.present s
    | none => StepResult.absent,
    match conf.profile with
    | some p =>
      match assocLookup p "sdk_ua_app_id" with
      | some s => StepResult.present s
      | none => StepResult.absent
    | none => StepResult.absent ]

/-- Modelled from the spec: the region default chain - first non-absent
step wins, absence leaves the axis unset. -/
def specRegionChain (conf : ProviderConfig) : Option String :=
  (runChain (regionSteps conf) ErrorPolicy.treatAsAbsence).1.toOption

/-- Modelled from the spec: the retry default chain, ending in the
hardcoded default retry configuration (a terminal literal default). -/
def specRetryChain (conf : ProviderConfig) : RetryConfig :=
  match (runChain (retrySteps conf) ErrorPolicy.treatAsAbsence).1 with
  | ChainResult.value n => { max_attempts := n }
  | _ => {}

/-- Modelled from the spec: the timeout default chain, ending in the
default (empty) timeout configuration. -/
def specTimeoutChain (conf : ProviderConfig) : TimeoutConfig :=
  match (runChain (timeoutSteps conf) ErrorPolicy.treatAsAbsence).1 with
  | ChainResult.value n => { api := some n }
  | _ => {}

/-- Modelled from the spec: the app-name default chain - absence leaves
the axis unset. -/
def specAppNameChain (conf : ProviderConfig) : Option String :=
  (runChain (appNameSteps conf) ErrorPolicy.treatAsAbsence).1.toOption

/-! ## The credentials provider chain (spec section 4.3) -/

/-- Modelled from the spec: the environment-variable credentials step -
present when both the access key id and the secret key are set; a partial
pair is a malformed local configuration (terminal). -/
def envCredsStep (conf : ProviderConfig) : CredStep :=
  match assocLookup conf.env "AWS_ACCESS_KEY_ID",
        assocLookup conf.env "AWS_SECRET_ACCESS_KEY" with
  | some k, some s =>
    CredStep.creds
      { access_key_id := k, secret_access_key := s,
        session_token := assocLookup conf.env "AWS_SESSION_TOKEN",
        expiry := none, provider_name := "Environment" }
  | none, none => CredStep.noCreds
  | _, _ => CredStep.invalidConfig "partial static credentials in the environment"

/-- Modelled from the spec: the shared-profile credentials step - static
keys if the profile carries them, otherwise an assume-role sub-resolution
signed against the regional STS endpoint chosen by the already-resolved
region hint; an unreachable or unknown regional endpoint is a soft
(network) miss. -/
def profileCredsStep (conf : ProviderConfig) (region : Option String) : CredStep :=
  match conf.profile with
  | none => CredStep.noCreds
  | some p =>
    match assocLookup p "aws_access_key_id", assocLookup p "aws_secret_access_key" with
    | some k, some s =>
      CredStep.creds
        { access_key_id := k, secret_access_key := s,
          session_token := assocLookup p "aws_session_token",
          expiry := none, provider_name := "Profile" }
    | _, _ =>
      match assocLookup p "role_arn" with
      | none => CredStep.noCreds
      | some _ =>
        match region with
        | none => CredStep.unreachable "no signing region for STS AssumeRole"
        | some r =>
          match assocLookup conf.sts r with
          | some c => CredStep.creds c
          | none => CredStep.unreachable "STS regional endpoint unreachable"

/-- Modelled from the spec: the fixed priority order of the credentials
chain - environment, profile (possibly recursing into STS), then the
injectable remote identity steps (web-identity token, container endpoint,
instance metadata), each named for diagnostics. -/
def credsSteps (conf : ProviderConfig) (region : Option String) :
    List (String × CredStep) :=
  [("Environment", envCredsStep conf),
   ("Profile", profileCredsStep conf region),
   ("WebIdentityToken", conf.webIdentity),
   ("EcsContainer", conf.ecsCreds),
   ("Ec2InstanceMetadata", conf.imdsCreds)]

/-- Modelled from the spec: run the credentials chain - first present
value wins; a malformed local configuration is terminal wherever it
occurs; a network failure is a soft miss unless it comes from the final
provider; an exhausted chain fails naming the last attempted source. -/
def runCredsChain (steps : List (String × CredStep)) (lastTried : String) :
    CredsResult :=
  match steps with
  | [] => CredsResult.error (CredsError.credentialsNotLoaded lastTried)
  | (name, step) :: rest =>
    match step with
    | CredStep.creds c => CredsResult.ok c
    | CredStep.noCreds => runCredsChain rest name
    | CredStep.invalidConfig m => CredsResult.error (CredsError.invalidConfiguration m)
    | CredStep.unreachable m =>
      if rest.isEmpty then CredsResult.error (CredsError.providerUnreachable name m)
      else runCredsChain rest name

/-- Modelled from the spec: the credentials chain as built by
DefaultCredentialsChain::builder().configure(conf) with the resolved
region installed by set_region. -/
def specCredsChainResult (conf : ProviderConfig) (region : Option String) :
    CredsResult :=
  runCredsChain (credsSteps conf region) "none"

/-- A shared credentials capability as stored in the loader and the
snapshot: either an opaque user-supplied provider (represented
extensionally by the result it produces) or the default credentials chain
built over a Source Abstraction with a signing-region hint. -/
inductive CredentialsProviderModel where
  | capability (result : CredsResult)
  | defaultChain (conf : ProviderConfig) (region : Option String)
deriving DecidableEq

/-- Ask a credentials capability for credentials. -/
def provideCredentials : CredentialsProviderModel → CredsResult
  | CredentialsProviderModel.capability r => r
  | CredentialsProviderModel.defaultChain conf region => specCredsChainResult conf region

/-! ## The configuration loader (aws-config/src/lib.rs, mod loader) -/

/-- The immutable configuration snapshot (aws_types::SdkConfig) assembled
by `load`: each axis is a value, or unset - there is no error state. -/
structure SdkConfig where
  region : Option String
  retry_config : Option RetryConfig
  timeout_config : Option TimeoutConfig
  credentials_provider : Option CredentialsProviderModel
  http_connector : Option HttpConnector
  endpoint_resolver : Option Nat
  app_name : Option String
  sleep_impl : Option SleepImpl
deriving DecidableEq

/-- ConfigLoader (lib.rs lines 181-192): the mutable builder holding at
most one override per axis.  A region override (a boxed ProvideRegion) is
represented extensionally by the optional region it produces; an endpoint
resolver by an opaque identifier. -/
structure ConfigLoader where
  app_name : Option String := none
  credentials_provider : Option CredentialsProviderModel := none
  endpoint_resolver : Option Nat := none
  region : Option (Option String) := none
  retry_config : Option RetryConfig := none
  sleep : Option SleepImpl := none
  timeout_config : Option TimeoutConfig := none
  provider_config : Option ProviderConfig := none
  http_connector : Option HttpConnector := none
deriving DecidableEq

/-- from_env (lib.rs line 144): ConfigLoader::default(). -/
def from_env : ConfigLoader := {}

/-- ConfigLoader::region (lib.rs line 206). -/
def ConfigLoader.set_region (self : ConfigLoader) (region : Option String) :
    ConfigLoader :=
  { self with region := some region }

/-- ConfigLoader::retry_config (lib.rs line 222). -/
def ConfigLoader.set_retry_config (self : ConfigLoader) (retry_config : RetryConfig) :
    ConfigLoader :=
  { self with retry_config := some retry_config }

/-- ConfigLoader::timeout_config (lib.rs line 246). -/
def ConfigLoader.set_timeout_config (self : ConfigLoader) (timeout_config : TimeoutConfig) :
    ConfigLoader :=
  { self with timeout_config := some timeout_config }

/-- ConfigLoader::sleep_impl (lib.rs line 253). -/
def ConfigLoader.sleep_impl (self : ConfigLoader) (sleep : SleepImpl) : ConfigLoader :=
  { self with sleep := some sleep }

/-- ConfigLoader::http_connector (lib.rs line 260). -/
def ConfigLoader.set_http_connector (self : ConfigLoader) (http_connector : HttpConnector) :
    ConfigLoader :=
  { self with http_connector := some http_connector }

/-- ConfigLoader::credentials_provider (lib.rs line 282);
SharedCredentialsProvider::new is the identity on the capability model. -/
def ConfigLoader.set_credentials_provider (self : ConfigLoader)
    (credentials_provider : CredentialsProviderModel) : ConfigLoader :=
  { self with credentials_provider := some credentials_provider }

/-- ConfigLoader::endpoint_resolver (lib.rs line 306). -/
def ConfigLoader.set_endpoint_resolver (self : ConfigLoader) (endpoint_resolver : Nat) :
    ConfigLoader :=
  { self with endpoint_resolver := some endpoint_resolver }

/-- ConfigLoader::configure (lib.rs line 332). -/
def ConfigLoader.configure (self : ConfigLoader) (provider_config : ProviderConfig) :
    ConfigLoader :=
  { self with provider_config := some provider_config }

/-- The five axis default chains that `load` invokes for axes without an
override.  They live in the crate's default_provider module, outside the
given sources, so `load` takes them as an explicit argument; `specChains`
instantiates them with the chains modelled from the spec. -/
structure DefaultChains where
  regionChain : ProviderConfig → Option String
  retryChain : ProviderConfig → RetryConfig
  timeoutChain : ProviderConfig → TimeoutConfig
  appNameChain : ProviderConfig → Option String
  credsChain : ProviderConfig → Option String → CredentialsProviderModel

/-- Modelled from the spec: the concrete default chains of the crate's
default_provider module. -/
def specChains : DefaultChains :=
  { regionChain := specRegionChain,
    retryChain := specRetryChain,
    timeoutChain := specTimeoutChain,
    appNameChain := specAppNameChain,
    credsChain := fun conf region => CredentialsProviderModel.defaultChain conf region }

/-- ConfigLoader::load (lib.rs lines 346-432), translated clause by
clause: unwrap_or_default on the provider config; for each axis use the
override when present, the axis default chain otherwise; build the
default connector from the timeout override (or the default timeout
configuration) when no connector override is given; build the default
credentials chain with the already-resolved region; assemble the
snapshot. -/
def ConfigLoader.load (self : ConfigLoader) (chains : DefaultChains) : SdkConfig :=
  let conf := self.provider_config.getD ProviderConfig.empty
  let region :=
    match self.region with
    | some provider => provider
    | none => chains.regionChain conf
  let retry_config :=
    match self.retry_config with
    | some retry_config => retry_config
    | none => chains.retryChain conf
  let app_name :=
    if self.app_name.isSome then self.app_name
    else chains.appNameChain conf
  let sleep_impl :=
    if self.sleep.isNone then defaultAsyncSleep
    else self.sleep
  let http_connector :=
    match self.http_connector with
    | some http_connector => http_connector
    | none =>
      let timeouts := self.timeout_config.getD {}
      let settings : HttpSettings :=
        { httpTimeout := timeouts.http, tcpTimeout := timeouts.tcp }
      HttpConnector.prebuilt settings sleep_impl
  let timeout_config :=
    match self.timeout_config with
    | some timeout_config => timeout_config
    | none => chains.timeoutChain conf
  let credentials_provider :=
    match self.credentials_provider with
    | some provider => provider
    | none => chains.credsChain conf region
  { region := region,
    retry_config := some retry_config,
    timeout_config := some timeout_config,
    credentials_provider := some credentials_provider,
    http_connector := some http_connector,
    endpoint_resolver := self.endpoint_resolver,
    app_name := app_name,
    sleep_impl := sleep_impl }

/-! ## The lazy credential cache (spec section 4.4) -/

/-- Modelled from the spec: the mutable state of the Lazy Credential
Cache - the cached credentials entry, created empty and replaced
wholesale on each successful refresh. -/
structure CacheState where
  cached : Option Credentials := none
deriving DecidableEq

/-- Modelled from the spec: a cached entry is still fresh when its
expiration is farther than the refresh buffer from the current time;
credentials lacking an expiration are cached indefinitely. -/
def cacheFresh (now buffer : Nat) (c : Credentials) : Bool :=
  match c.expiry with
  | none => true
  | some e => now + buffer < e

/-- Modelled from the spec: a cached entry is still within its absolute
expiration (possibly already inside the refresh buffer). -/
def staleValid (now : Nat) (c : Credentials) : Bool :=
  match c.expiry with
  | none => true
  | some e => now < e

/-- Modelled from the spec: one `get_credentials()` call of the Lazy
Credential Cache: return a fresh cached entry without consulting the
inner provider; otherwise refresh through the inner provider - on
success replace the entry wholesale, on failure fall back to a
stale-but-unexpired previous entry, surfacing the failure only when the
previous entry is fully expired or none exists.  The result carries the
new state and whether the inner provider was invoked. -/
def getCredentials (s : CacheState) (now buffer : Nat) (inner : CredsResult) :
    CredsResult × CacheState × Bool :=
  match s.cached with
  | some c =>
    if cacheFresh now buffer c then (CredsResult.ok c, s, false)
    else
      match inner with
      | CredsResult.ok fresh => (CredsResult.ok fresh, { cached := some fresh }, true)
      | CredsResult.error e =>
        if staleValid now c then (CredsResult.ok c, s, true)
        else (CredsResult.error e, s, true)
  | none =>
    match inner with
    | CredsResult.ok fresh => (CredsResult.ok fresh, { cached := some fresh }, true)
    | CredsResult.error e => (CredsResult.error e, s, true)

/-! ## Single-flight coalescing (spec sections 4.4 and 5) -/

/-- Modelled from the spec: the shared in-flight-result handle for
single-flight coalescing - whether a refresh is in flight together with
the callers awaiting it, and how often the inner provider has been
invoked. -/
structure Flight where
  inflightWaiters : Option (List Nat)
  invocations : Nat
deriving DecidableEq

/-- The cache with no refresh in flight and no inner invocation yet. -/
def Flight.idle : Flight := { inflightWaiters := none, invocations := 0 }

/-- Modelled from the spec: a caller arrives needing a refresh - when a
refresh is already in flight it attaches to it as a waiter instead of
starting new work; otherwise it invokes the inner provider and opens the
in-flight handle. -/
def Flight.arrive (s : Flight) (caller : Nat) : Flight :=
  match s.inflightWaiters with
  | some ws => { s with inflightWaiters := some (ws ++ [caller]) }
  | none => { inflightWaiters := some [caller], invocations := s.invocations + 1 }

/-- Modelled from the spec: the in-flight refresh finishes with one
result (fresh credentials or one failure) and every waiting caller
observes that same result. -/
def Flight.finish (s : Flight) (result : CredsResult) :
    List (Nat × CredsResult) × Flight :=
  match s.inflightWaiters with
  | some ws => (ws.map (fun c => (c, result)), { s with inflightWaiters := none })
  | none => ([], s)

/-- A batch of concurrent callers arriving in some interleaving order. -/
def Flight.arriveAll (s : Flight) (callers : List Nat) : Flight :=
  callers.foldl Flight.arrive s

/-! ## Concrete inputs used by witnesses and counterexamples -/

/-- A user-supplied override credentials capability. -/
def credsW : Credentials :=
  { access_key_id := "AKIDW", secret_access_key := "sw", session_token := none,
    expiry := none, provider_name := "Override" }

/-- A loader with an explicit override on every axis of claim C1; the
region override is a provider that yields absence. -/
def loaderC1 : ConfigLoader :=
  { region := some none, retry_config := some { max_attempts := 7 },
    timeout_config := some { api := some 5 }, app_name := some "myapp",
    credentials_provider := some (CredentialsProviderModel.capability (CredsResult.ok credsW)) }

/-- A Source Abstraction whose profile delegates to STS AssumeRole, so the
credentials the default chain produces depend on the signing region. -/
def confCx : ProviderConfig :=
  { env := [("AWS_REGION", "us-east-1")],
    profile := some [("role_arn", "arn:aws:iam::123456789012:role/r")],
    sts := [("us-east-1",
             { access_key_id := "AKIDEAST", secret_access_key := "se",
               session_token := none, expiry := some 1000,
               provider_name := "AssumeRoleProvider" }),
            ("eu-west-1",
             { access_key_id := "AKIDWEST", secret_access_key := "sw",
               session_token := none, expiry := some 1000,
               provider_name := "AssumeRoleProvider" })] }

/-- A run with no overrides over `confCx`. -/
def loaderCxA : ConfigLoader := from_env.configure confCx

/-- The same run with only a region override added. -/
def loaderCxB : ConfigLoader := loaderCxA.set_region (some "eu-west-1")

/-- The environment of Scenario A (the provider_config_used test,
lib.rs lines 444-472). -/
def confA : ProviderConfig :=
  { env := [("AWS_MAX_ATTEMPTS", "10"), ("AWS_REGION", "us-west-4"),
            ("AWS_ACCESS_KEY_ID", "akid"), ("AWS_SECRET_ACCESS_KEY", "secret")] }

/-- The environment credentials Scenario A resolves to. -/
def credsEnvA : Credentials :=
  { access_key_id := "akid", secret_access_key := "secret", session_token := none,
    expiry := none, provider_name := "Environment" }

/-- A cached entry past its refresh buffer but inside its absolute
expiration at time 50 with buffer 60. -/
def credsStale : Credentials :=
  { access_key_id := "AKIDSTALE", secret_access_key := "ss", session_token := none,
    expiry := some 100, provider_name := "Chain" }

/-! ## Claims -/

/-- C1: for every axis of the loader (region, retry config, timeout
config, app name, credentials), when an explicit override was set before
`load`, `load` uses the override value unconditionally and never invokes
that axis's default chain: the resulting axis value equals the override
for every choice of default chains - in particular a region override
provider that yields None leaves the region unset in the snapshot. -/
theorem c1_override_precedence (self : ConfigLoader) (chains : DefaultChains) :
    (∀ p, self.region = some p → (self.load chains).region = p)
  ∧ (∀ rc, self.retry_config = some rc → (self.load chains).retry_config = some rc)
  ∧ (∀ tc, self.timeout_config = some tc → (self.load chains).timeout_config = some tc)
  ∧ (self.app_name.isSome = true → (self.load chains).app_name = self.app_name)
  ∧ (∀ cp, self.credentials_provider = some cp →
      (self.load chains).credentials_provider = some cp) := by
  obtain ⟨a, c, e, r, rc, s, tc, pc, hc⟩ := self
  refine ⟨?_, ?_, ?_, ?_, ?_⟩
  · intro p h; subst h; rfl
  · intro x h; subst h; rfl
  · intro x h; subst h; rfl
  · intro h
    cases a with
    | none => cases h
    | some v => rfl
  · intro x h; subst h; rfl

/-- C1 witness: a loader overriding all five axes, with a region override
that yields absence, loads to exactly the overridden values. -/
theorem c1_witness :
    loaderC1.region = some none
  ∧ (loaderC1.load specChains).region = none
  ∧ (loaderC1.load specChains).retry_config = some { max_attempts := 7 }
  ∧ (loaderC1.load specChains).timeout_config = some { api := some 5, http := none, tcp := none }
  ∧ (loaderC1.load specChains).app_name = some "myapp"
  ∧ (loaderC1.load specChains).credentials_provider
      = some (CredentialsProviderModel.capability (CredsResult.ok credsW)) :=
  ⟨rfl,
   (c1_override_precedence loaderC1 specChains).1 none rfl,
   (c1_override_precedence loaderC1 specChains).2.1 _ rfl,
   (c1_override_precedence loaderC1 specChains).2.2.1 _ rfl,
   (c1_override_precedence loaderC1 specChains).2.2.2.1 rfl,
   (c1_override_precedence loaderC1 specChains).2.2.2.2 _ rfl⟩

/-- C2 (amended): for any two runs differing only in the override of one
axis, every other axis of the snapshot resolves identically, with the one
exception the counterexample forces: the credentials chain is built with
the resolved region as its signing hint (lib.rs line 415), so a region
override does change the resolved credentials provider.  Overriding
credentials, retry config, timeout config or app name leaves every other
axis unchanged; overriding region leaves retry, timeout and app name
unchanged. -/
theorem c2_axis_independence_amended (self : ConfigLoader) (chains : DefaultChains)
    (cp : Option CredentialsProviderModel) (r : Option (Option String))
    (rcv : Option RetryConfig) (tcv : Option TimeoutConfig) (an : Option String) :
    (({ self with credentials_provider := cp } : ConfigLoader).load chains).region
        = (self.load chains).region
  ∧ (({ self with credentials_provider := cp } : ConfigLoader).load chains).retry_config
        = (self.load chains).retry_config
  ∧ (({ self with credentials_provider := cp } : ConfigLoader).load chains).timeout_config
        = (self.load chains).timeout_config
  ∧ (({ self with credentials_provider := cp } : ConfigLoader).load chains).app_name
        = (self.load chains).app_name
  ∧ (({ self with credentials_provider := cp } : ConfigLoader).load chains).http_connector
        = (self.load chains).http_connector
  ∧ (({ self with credentials_provider := cp } : ConfigLoader).load chains).endpoint_resolver
        = (self.load chains).endpoint_resolver
  ∧ (({ self with credentials_provider := cp } : ConfigLoader).load chains).sleep_impl
        = (self.load chains).sleep_impl
  ∧ (({ self with region := r } : ConfigLoader).load chains).retry_config
        = (self.load chains).retry_config
  ∧ (({ self with region := r } : ConfigLoader).load chains).timeout_config
        = (self.load chains).timeout_config
  ∧ (({ self with region := r } : ConfigLoader).load chains).app_name
        = (self.load chains).app_name
  ∧ (({ self with region := r } : ConfigLoader).load chains).http_connector
        = (self.load chains).http_connector
  ∧ (({ self with region := r } : ConfigLoader).load chains).endpoint_resolver
        = (self.load chains).endpoint_resolver
  ∧ (({ self with region := r } : ConfigLoader).load chains).sleep_impl
        = (self.load chains).sleep_impl
  ∧ (({ self with retry_config := rcv } : ConfigLoader).load chains).region
        = (self.load chains).region
  ∧ (({ self with retry_config := rcv } : ConfigLoader).load chains).timeout_config
        = (self.load chains).timeout_config
  ∧ (({ self with retry_config := rcv } : ConfigLoader).load chains).app_name
        = (self.load chains).app_name
  ∧ (({ self with retry_config := rcv } : ConfigLoader).load chains).credentials_provider
        = (self.load chains).credentials_provider
  ∧ (({ self with retry_config := rcv } : ConfigLoader).load chains).http_connector
        = (self.load chains).http_connector
  ∧ (({ self with retry_config := rcv } : ConfigLoader).load chains).endpoint_resolver
        = (self.load chains).endpoint_resolver
  ∧ (({ self with retry_config := rcv } : ConfigLoader).load chains).sleep_impl
        = (self.load chains).sleep_impl
  ∧ (({ self with timeout_config := tcv } : ConfigLoader).load chains).region
        = (self.load chains).region
  ∧ (({ self with timeout_config := tcv } : ConfigLoader).load chains).retry_config
        = (self.load chains).retry_config
  ∧ (({ self with timeout_config := tcv } : ConfigLoader).load chains).app_name
        = (self.load chains).app_name
  ∧ (({ self with timeout_config := tcv } : ConfigLoader).load chains).credentials_provider
        = (self.load chains).credentials_provider
  ∧ (({ self with timeout_config := tcv } : ConfigLoader).load chains).endpoint_resolver
        = (self.load chains).endpoint_resolver
  ∧ (({ self with timeout_config := tcv } : ConfigLoader).load chains).sleep_impl
        = (self.load chains).sleep_impl
  ∧ (({ self with app_name := an } : ConfigLoader).load chains).region
        = (self.load chains).region
  ∧ (({ self with app_name := an } : ConfigLoader).load chains).retry_config
        = (self.load chains).retry_config
  ∧ (({ self with app_name := an } : ConfigLoader).load chains).timeout_config
        = (self.load chains).timeout_config
  ∧ (({ self with app_name := an } : ConfigLoader).load chains).credentials_provider
        = (self.load chains).credentials_provider
  ∧ (({ self with app_name := an } : ConfigLoader).load chains).http_connector
        = (self.load chains).http_connector
  ∧ (({ self with app_name := an } : ConfigLoader).load chains).endpoint_resolver
        = (self.load chains).endpoint_resolver
  ∧ (({ self with app_name := an } : ConfigLoader).load chains).sleep_impl
        = (self.load chains).sleep_impl := by
  repeat' apply And.intro
  all_goals rfl

/-- C2 counterexample: two runs over the same Source Abstraction that
differ only in the region override resolve different credentials axes -
both as provider values and in the credentials those providers produce
(AKIDEAST from the us-east-1 STS endpoint versus AKIDWEST from
eu-west-1) - so overriding region does change the resolved credentials. -/
theorem c2_counterexample :
    loaderCxB = { loaderCxA with region := some (some "eu-west-1") }
  ∧ (loaderCxA.load specChains).credentials_provider
      ≠ (loaderCxB.load specChains).credentials_provider
  ∧ Option.map provideCredentials ((loaderCxA.load specChains).credentials_provider)
      ≠ Option.map provideCredentials ((loaderCxB.load specChains).credentials_provider) :=
  ⟨rfl, by decide, by decide⟩

/-- C3 counterexample: the claim quantifies over any index i; with two
present providers, provider 1 also returns a present value, yet the chain
returns provider 0's value, not provider 1's. -/
theorem c3_counterexample :
    [StepResult.present (1:Nat), StepResult.present 2].get? 1
        = some (StepResult.present 2)
  ∧ (runChain [StepResult.present (1:Nat), StepResult.present 2]
        ErrorPolicy.treatAsAbsence).1 ≠ ChainResult.value 2 :=
  ⟨rfl, by decide⟩

/-- C3 (amended): if provider i returns a present value, providers
i+1..n are never invoked (at most i+1 providers are consulted); if
moreover every earlier provider is passed over (absence, or a hard error
under the treat-as-absence policy), the chain returns provider i's value
having consulted exactly i+1 providers. -/
theorem c3_short_circuit {V : Type} (steps : List (StepResult V)) (pol : ErrorPolicy)
    (i : Nat) (v : V) (hi : steps.get? i = some (StepResult.present v)) :
    (runChain steps pol).2 ≤ i + 1
  ∧ ((steps.take i).all (stepSkipped pol) = true →
      (runChain steps pol).1 = ChainResult.value v ∧ (runChain steps pol).2 = i + 1) := by
  induction steps generalizing i with
  | nil => simp [List.get?] at hi
  | cons s rest ih =>
    cases i with
    | zero =>
      rw [List.get?] at hi
      injection hi with hs
      subst hs
      exact ⟨Nat.le_refl 1, fun _ => ⟨rfl, rfl⟩⟩
    | succ i =>
      rw [List.get?] at hi
      have h2 := ih i hi
      cases s with
      | present w =>
        refine ⟨?_, ?_⟩
        · simp [runChain]
        · intro hall
          simp [List.all_cons, stepSkipped] at hall
      | absent =>
        refine ⟨?_, ?_⟩
        · simp only [runChain]
          have := h2.1
          omega
        · intro hall
          simp only [List.take_succ_cons, List.all_cons, stepSkipped, Bool.true_and] at hall
          have h3 := h2.2 hall
          simp only [runChain]
          exact ⟨h3.1, by omega⟩
      | hardError m =>
        cases pol with
        | treatAsAbsence =>
          refine ⟨?_, ?_⟩
          · simp only [runChain]
            have := h2.1
            omega
          · intro hall
            simp only [List.take_succ_cons, List.all_cons, stepSkipped,
              beq_self_eq_true, Bool.true_and] at hall
            have h3 := h2.2 hall
            simp only [runChain]
            exact ⟨h3.1, by omega⟩
        | terminal =>
          refine ⟨?_, ?_⟩
          · simp [runChain]
          · intro hall
            simp [List.take_succ_cons, List.all_cons, stepSkipped] at hall

/-- C3 witness: in a chain whose provider 1 is the first present one, the
chain returns its value having consulted exactly providers 0 and 1. -/
theorem c3_witness :
    [StepResult.absent, StepResult.present (5:Nat), StepResult.absent].get? 1
        = some (StepResult.present 5)
  ∧ (runChain [StepResult.absent, StepResult.present (5:Nat), StepResult.absent]
        ErrorPolicy.treatAsAbsence).2 ≤ 2
  ∧ (runChain [StepResult.absent, StepResult.present (5:Nat), StepResult.absent]
        ErrorPolicy.treatAsAbsence).1 = ChainResult.value 5
  ∧ (runChain [StepResult.absent, StepResult.present (5:Nat), StepResult.absent]
        ErrorPolicy.treatAsAbsence).2 = 2 :=
  ⟨rfl,
   (c3_short_circuit [StepResult.absent, StepResult.present 5, StepResult.absent]
     ErrorPolicy.treatAsAbsence 1 5 rfl).1,
   ((c3_short_circuit [StepResult.absent, StepResult.present 5, StepResult.absent]
     ErrorPolicy.treatAsAbsence 1 5 rfl).2 (by decide)).1,
   ((c3_short_circuit [StepResult.absent, StepResult.present 5, StepResult.absent]
     ErrorPolicy.treatAsAbsence 1 5 rfl).2 (by decide)).2⟩

/-- A previous entry past its absolute expiration is in particular past
its refresh-buffer freshness window. -/
theorem cacheFresh_false_of_staleValid_false (now buffer : Nat) (c : Credentials)
    (h : staleValid now c = false) : cacheFresh now buffer c = false := by
  unfold staleValid at h
  unfold cacheFresh
  cases hc : c.expiry with
  | none => rw [hc] at h; cases h
  | some e0 =>
    rw [hc] at h
    simp only [decide_eq_false_iff_not] at h ⊢
    omega

/-- C4: when a refresh fails but the cached entry's absolute expiration
has not passed (even inside the refresh buffer), get_credentials returns
the previous entry; the failure is surfaced only when no entry exists or
the previous entry is fully expired. -/
theorem c4_stale_fallback (s : CacheState) (now buffer : Nat) (inner : CredsResult)
    (c : Credentials) (e : CredsError) (hi : inner = CredsResult.error e) :
    (s.cached = some c → staleValid now c = true →
      (getCredentials s now buffer inner).1 = CredsResult.ok c)
  ∧ (s.cached = none → (getCredentials s now buffer inner).1 = CredsResult.error e)
  ∧ (s.cached = some c → staleValid now c = false →
      (getCredentials s now buffer inner).1 = CredsResult.error e) := by
  subst hi
  obtain ⟨cached⟩ := s
  refine ⟨?_, ?_, ?_⟩
  · intro h hs
    simp only at h
    subst h
    cases hf : cacheFresh now buffer c <;> simp [getCredentials, hf, hs]
  · intro h
    simp only at h
    subst h
    rfl
  · intro h hs
    simp only at h
    subst h
    have hf := cacheFresh_false_of_staleValid_false now buffer c hs
    simp [getCredentials, hf, hs]

/-- C4 witness: at time 50 with a 60-unit refresh buffer, an entry
expiring at 100 is past its freshness window but within its absolute
expiration, and a failing refresh still returns it. -/
theorem c4_witness :
    staleValid 50 credsStale = true
  ∧ cacheFresh 50 60 credsStale = false
  ∧ (getCredentials { cached := some credsStale } 50 60
      (CredsResult.error (CredsError.credentialsNotLoaded "Ec2InstanceMetadata"))).1
        = CredsResult.ok credsStale :=
  ⟨by decide, by decide,
   (c4_stale_fallback { cached := some credsStale } 50 60
     (CredsResult.error (CredsError.credentialsNotLoaded "Ec2InstanceMetadata"))
     credsStale (CredsError.credentialsNotLoaded "Ec2InstanceMetadata") rfl).1
     rfl (by decide)⟩

/-- Callers arriving while a refresh is in flight only join the waiter
list; the invocation count does not move. -/
theorem arriveAll_inflight (callers ws : List Nat) (inv : Nat) :
    Flight.arriveAll { inflightWaiters := some ws, invocations := inv } callers
      = { inflightWaiters := some (ws ++ callers), invocations := inv } := by
  induction callers generalizing ws with
  | nil => simp [Flight.arriveAll]
  | cons c cs ih =>
    simp only [Flight.arriveAll, List.foldl_cons, Flight.arrive]
    have h2 := ih (ws ++ [c])
    simp only [Flight.arriveAll] at h2
    rw [h2]
    simp

/-- C5: N concurrent callers arriving while no valid cached entry exists
(in any interleaving order) cause exactly one inner-provider invocation,
and when the in-flight refresh finishes, all N callers observe the same
resulting credentials or the same failure. -/
theorem c5_single_flight (callers : List Nat) (result : CredsResult)
    (h : callers ≠ []) :
    (Flight.arriveAll Flight.idle callers).invocations = 1
  ∧ ((Flight.arriveAll Flight.idle callers).finish result).1.length = callers.length
  ∧ (∀ pr ∈ ((Flight.arriveAll Flight.idle callers).finish result).1, pr.2 = result) := by
  cases callers with
  | nil => exact absurd rfl h
  | cons c cs =>
    have hall : Flight.arriveAll Flight.idle (c :: cs)
        = { inflightWaiters := some (c :: cs), invocations := 1 } := by
      simp only [Flight.arriveAll, List.foldl_cons]
      have h2 := arriveAll_inflight cs [c] 1
      simp only [Flight.arriveAll] at h2
      have harr : Flight.arrive Flight.idle c
          = { inflightWaiters := some [c], invocations := 1 } := rfl
      rw [harr, h2]
      simp
    rw [hall]
    refine ⟨rfl, ?_, ?_⟩
    · simp [Flight.finish]
    · intro pr hpr
      simp only [Flight.finish, List.mem_map] at hpr
      obtain ⟨x, _, hx⟩ := hpr
      rw [← hx]

/-- C5 witness: three concurrent callers produce one invocation and all
three observe the same result. -/
theorem c5_witness :
    ([0, 1, 2] ≠ ([] : List Nat))
  ∧ (Flight.arriveAll Flight.idle [0, 1, 2]).invocations = 1
  ∧ ((Flight.arriveAll Flight.idle [0, 1, 2]).finish
        (CredsResult.ok credsStale)).1.length = 3
  ∧ (∀ pr ∈ ((Flight.arriveAll Flight.idle [0, 1, 2]).finish
        (CredsResult.ok credsStale)).1, pr.2 = CredsResult.ok credsStale) :=
  ⟨by decide,
   (c5_single_flight [0, 1, 2] (CredsResult.ok credsStale) (by decide)).1,
   (c5_single_flight [0, 1, 2] (CredsResult.ok credsStale) (by decide)).2.1,
   (c5_single_flight [0, 1, 2] (CredsResult.ok credsStale) (by decide)).2.2⟩

/-- C6: in every run where the credentials axis is not overridden, the
snapshot's credentials provider is the default credentials chain built
over the loader's Source Abstraction with the already-resolved region
(override or default-chain result) passed to it as the signing-region
hint. -/
theorem c6_region_before_credentials (self : ConfigLoader) (chains : DefaultChains)
    (h : self.credentials_provider = none) :
    (self.load chains).credentials_provider =
      some (chains.credsChain (self.provider_config.getD ProviderConfig.empty)
        ((self.load chains).region)) := by
  obtain ⟨a, c, e, r, rc, s, tc, pc, hc⟩ := self
  subst h
  rfl

/-- C6 witness: the fresh environment loader has no credentials override
and its snapshot's credentials chain carries the snapshot's region. -/
theorem c6_witness :
    from_env.credentials_provider = none
  ∧ (from_env.load specChains).credentials_provider =
      some (specChains.credsChain ProviderConfig.empty ((from_env.load specChains).region)) :=
  ⟨rfl, c6_region_before_credentials from_env specChains rfl⟩

/-- Under the treat-as-absence policy the generic chain can never end in
a fatal error, whatever its providers report. -/
theorem runChain_treatAsAbsence_isError (V : Type) (steps : List (StepResult V)) :
    ((runChain steps ErrorPolicy.treatAsAbsence).1).isError = false := by
  induction steps with
  | nil => rfl
  | cons s rest ih =>
    cases s with
    | present v => rfl
    | absent => simpa [runChain] using ih
    | hardError m => simpa [runChain] using ih

/-- C7: for every input environment, the region, retry, timeout and
app-name chains never produce a fatal error (their policy downgrades
malformed values to absence), and `load` always returns a snapshot in
which each such axis is a value or is left unset - only the credentials
axis, queried later through its provider, can surface a failure. -/
theorem c7_no_fatal (conf : ProviderConfig) (self : ConfigLoader) :
    ((runChain (regionSteps conf) ErrorPolicy.treatAsAbsence).1).isError = false
  ∧ ((runChain (retrySteps conf) ErrorPolicy.treatAsAbsence).1).isError = false
  ∧ ((runChain (timeoutSteps conf) ErrorPolicy.treatAsAbsence).1).isError = false
  ∧ ((runChain (appNameSteps conf) ErrorPolicy.treatAsAbsence).1).isError = false
  ∧ (self.load specChains).retry_config.isSome = true
  ∧ (self.load specChains).timeout_config.isSome = true
  ∧ (self.load specChains).credentials_provider.isSome = true
  ∧ (self.load specChains).http_connector.isSome = true :=
  ⟨runChain_treatAsAbsence_isError _ _, runChain_treatAsAbsence_isError _ _,
   runChain_treatAsAbsence_isError _ _, runChain_treatAsAbsence_isError _ _,
   rfl, rfl, rfl, rfl⟩

/-- C8: Scenario A - with AWS_MAX_ATTEMPTS=10, AWS_REGION=us-west-4,
AWS_ACCESS_KEY_ID=akid, AWS_SECRET_ACCESS_KEY=secret, no profile file and
no overrides, the snapshot has retry max attempts 10, region us-west-4,
and its credentials provider yields credentials with access key id
akid. -/
theorem c8_scenario_a :
    ((from_env.configure confA).load specChains).retry_config = some { max_attempts := 10 }
  ∧ ((from_env.configure confA).load specChains).region = some "us-west-4"
  ∧ Option.map provideCredentials
      (((from_env.configure confA).load specChains).credentials_provider)
        = some (CredsResult.ok credsEnvA)
  ∧ credsEnvA.access_key_id = "akid" :=
  ⟨by decide, by decide, by decide, rfl⟩

/-- C9: when neither the connector nor the timeout configuration is
overridden, `load` builds the default connector from the default (empty)
timeout configuration - not from the timeout default chain, whose result
lands only in the snapshot's timeout_config field - so the connector is
the same whatever the default chains return. -/
theorem c9_connector_default_timeouts (self : ConfigLoader) (chains chains2 : DefaultChains)
    (h1 : self.http_connector = none) (h2 : self.timeout_config = none) :
    (self.load chains).http_connector =
      some (HttpConnector.prebuilt { httpTimeout := none, tcpTimeout := none }
        (if self.sleep.isNone then defaultAsyncSleep else self.sleep))
  ∧ (self.load chains).timeout_config =
      some (chains.timeoutChain (self.provider_config.getD ProviderConfig.empty))
  ∧ (self.load chains).http_connector = (self.load chains2).http_connector := by
  obtain ⟨a, c, e, r, rc, s, tc, pc, hc⟩ := self
  subst h1
  subst h2
  exact ⟨rfl, rfl, rfl⟩

/-- C9 witness: the fresh environment loader builds its connector with
empty timeout settings. -/
theorem c9_witness :
    from_env.http_connector = none
  ∧ from_env.timeout_config = none
  ∧ (from_env.load specChains).http_connector =
      some (HttpConnector.prebuilt { httpTimeout := none, tcpTimeout := none } defaultAsyncSleep) :=
  ⟨rfl, rfl, (c9_connector_default_timeouts from_env specChains specChains rfl rfl).1⟩

/-- C10: every override setter of the loader assigns only its own
override slot, leaves every other slot unchanged, and calling the same
setter twice keeps only the last value. -/
theorem c10_setter_frame (self : ConfigLoader) (r r2 : Option String)
    (rc rc2 : RetryConfig) (tc tc2 : TimeoutConfig) (sl sl2 : SleepImpl)
    (hc hc2 : HttpConnector) (cp cp2 : CredentialsProviderModel)
    (er er2 : Nat) (pc pc2 : ProviderConfig) :
    ((self.set_region r).region = some r
      ∧ (self.set_region r).app_name = self.app_name
      ∧ (self.set_region r).credentials_provider = self.credentials_provider
      ∧ (self.set_region r).endpoint_resolver = self.endpoint_resolver
      ∧ (self.set_region r).retry_config = self.retry_config
      ∧ (self.set_region r).sleep = self.sleep
      ∧ (self.set_region r).timeout_config = self.timeout_config
      ∧ (self.set_region r).provider_config = self.provider_config
      ∧ (self.set_region r).http_connector = self.http_connector
      ∧ (self.set_region r).set_region r2 = self.set_region r2)
  ∧ ((self.set_retry_config rc).retry_config = some rc
      ∧ (self.set_retry_config rc).app_name = self.app_name
      ∧ (self.set_retry_config rc).credentials_provider = self.credentials_provider
      ∧ (self.set_retry_config rc).endpoint_resolver = self.endpoint_resolver
      ∧ (self.set_retry_config rc).region = self.region
      ∧ (self.set_retry_config rc).sleep = self.sleep
      ∧ (self.set_retry_config rc).timeout_config = self.timeout_config
      ∧ (self.set_retry_config rc).provider_config = self.provider_config
      ∧ (self.set_retry_config rc).http_connector = self.http_connector
      ∧ (self.set_retry_config rc).set_retry_config rc2 = self.set_retry_config rc2)
  ∧ ((self.set_timeout_config tc).timeout_config = some tc
      ∧ (self.set_timeout_config tc).app_name = self.app_name
      ∧ (self.set_timeout_config tc).credentials_provider = self.credentials_provider
      ∧ (self.set_timeout_config tc).endpoint_resolver = self.endpoint_resolver
      ∧ (self.set_timeout_config tc).region = self.region
      ∧ (self.set_timeout_config tc).sleep = self.sleep
      ∧ (self.set_timeout_config tc).retry_config = self.retry_config
      ∧ (self.set_timeout_config tc).provider_config = self.provider_config
      ∧ (self.set_timeout_config tc).http_connector = self.http_connector
      ∧ (self.set_timeout_config tc).set_timeout_config tc2 = self.set_timeout_config tc2)
  ∧ ((self.sleep_impl sl).sleep = some sl
      ∧ (self.sleep_impl sl).app_name = self.app_name
      ∧ (self.sleep_impl sl).credentials_provider = self.credentials_provider
      ∧ (self.sleep_impl sl).endpoint_resolver = self.endpoint_resolver
      ∧ (self.sleep_impl sl).region = self.region
      ∧ (self.sleep_impl sl).retry_config = self.retry_config
      ∧ (self.sleep_impl sl).timeout_config = self.timeout_config
      ∧ (self.sleep_impl sl).provider_config = self.provider_config
      ∧ (self.sleep_impl sl).http_connector = self.http_connector
      ∧ (self.sleep_impl sl).sleep_impl sl2 = self.sleep_impl sl2)
  ∧ ((self.set_http_connector hc).http_connector = some hc
      ∧ (self.set_http_connector hc).app_name = self.app_name
      ∧ (self.set_http_connector hc).credentials_provider = self.credentials_provider
      ∧ (self.set_http_connector hc).endpoint_resolver = self.endpoint_resolver
      ∧ (self.set_http_connector hc).region = self.region
      ∧ (self.set_http_connector hc).retry_config = self.retry_config
      ∧ (self.set_http_connector hc).sleep = self.sleep
      ∧ (self.set_http_connector hc).timeout_config = self.timeout_config
      ∧ (self.set_http_connector hc).provider_config = self.provider_config
      ∧ (self.set_http_connector hc).set_http_connector hc2 = self.set_http_connector hc2)
  ∧ ((self.set_credentials_provider cp).credentials_provider = some cp
      ∧ (self.set_credentials_provider cp).app_name = self.app_name
      ∧ (self.set_credentials_provider cp).endpoint_resolver = self.endpoint_resolver
      ∧ (self.set_credentials_provider cp).region = self.region
      ∧ (self.set_credentials_provider cp).retry_config = self.retry_config
      ∧ (self.set_credentials_provider cp).sleep = self.sleep
      ∧ (self.set_credentials_provider cp).timeout_config = self.timeout_config
      ∧ (self.set_credentials_provider cp).provider_config = self.provider_config
      ∧ (self.set_credentials_provider cp).http_connector = self.http_connector
      ∧ (self.set_credentials_provider cp).set_credentials_provider cp2
          = self.set_credentials_provider cp2)
  ∧ ((self.set_endpoint_resolver er).endpoint_resolver = some er
      ∧ (self.set_endpoint_resolver er).app_name = self.app_name
      ∧ (self.set_endpoint_resolver er).credentials_provider = self.credentials_provider
      ∧ (self.set_endpoint_resolver er).region = self.region
      ∧ (self.set_endpoint_resolver er).retry_config = self.retry_config
      ∧ (self.set_endpoint_resolver er).sleep = self.sleep
      ∧ (self.set_endpoint_resolver er).timeout_config = self.timeout_config
      ∧ (self.set_endpoint_resolver er).provider_config = self.provider_config
      ∧ (self.set_endpoint_resolver er).http_connector = self.http_connector
      ∧ (self.set_endpoint_resolver er).set_endpoint_resolver er2
          = self.set_endpoint_resolver er2)
  ∧ ((self.configure pc).provider_config = some pc
      ∧ (self.configure pc).app_name = self.app_name
      ∧ (self.configure pc).credentials_provider = self.credentials_provider
      ∧ (self.configure pc).endpoint_resolver = self.endpoint_resolver
      ∧ (self.configure pc).region = self.region
      ∧ (self.configure pc).retry_config = self.retry_config
      ∧ (self.configure pc).sleep = self.sleep
      ∧ (self.configure pc).timeout_config = self.timeout_config
      ∧ (self.configure pc).http_connector = self.http_connector
      ∧ (self.configure pc).configure pc2 = self.configure pc2) := by
  repeat' apply And.intro
  all_goals rfl
